import Mathlib

/-!
# Verification of the load-testing core (TestRunner / PerformanceAnalyzer)

Shallow embedding of the TypeScript sources:
* `PerformanceAnalyzer` (metrics engine): `calculateMetrics`, `reset`,
  `exportToJson`, `exportToCsv`, and the `simple-statistics` helpers it calls
  (`quantile`, `min`, `max`, `mean`, `median`, `standardDeviation`).
* `TestRunner` (load orchestrator): `setClientsAmount`,
  `executeClientWorkflow`, `runConcurrentTest`, `runLoadTest`,
  `runClientForDuration`, `exportResults`.

Modelling conventions:
* JS numbers are modelled as `ℚ`; remote-step durations as `ℕ` (integer
  milliseconds, matching `Date.now()` subtraction).
* `Math.sqrt` is an abstract parameter `sqrt : ℚ → ℚ`: no claim depends on
  its value (the degenerate metrics branch returns literal zeros).
* `Date.prototype.toISOString`, `Number.prototype.toFixed(2)` and JS
  number-to-string conversion are abstract formatter parameters
  `iso, fixed2, numStr : ℚ → String` (pure functions of the value in JS).
* The concurrent fan-out is linearised: per-client outcome lists are
  concatenated in client order; all claims under verification are
  insensitive to the cross-client interleaving.
-/

namespace McpPerf

/-- `OperationResult` from PerformanceAnalyzer.ts. -/
structure OperationResult where
  success : Bool
  latency : ℚ
  timestamp : ℚ
  error : Option String
deriving DecidableEq

/-- `percentiles` block of `PerformanceMetrics` (types.ts). -/
structure Percentiles where
  p50 : ℚ
  p90 : ℚ
  p95 : ℚ
  p99 : ℚ
deriving DecidableEq

/-- `statistics` block of `PerformanceMetrics` (types.ts). -/
structure LatencyStatistics where
  min : ℚ
  max : ℚ
  mean : ℚ
  median : ℚ
  standardDeviation : ℚ
deriving DecidableEq

/-- `PerformanceMetrics` from types.ts. -/
structure PerformanceMetrics where
  totalOperations : ℕ
  successfulOperations : ℕ
  failedOperations : ℕ
  totalDuration : ℚ
  throughput : ℚ
  latencies : List ℚ
  percentiles : Percentiles
  statistics : LatencyStatistics
  errorRate : ℚ
  timestamps : List ℚ
deriving DecidableEq

/-- `simple-statistics` `quantileSorted(x, p)`: the value `ss.quantile`
computes once its input is (re)arranged in ascending order.  The JS code
throws on an empty sample; that branch is unreachable at every call site
(guarded by `latencies.length === 0`) and is modelled as `0`.
`idx % 1 !== 0` (non-integral index) is `idx.den ≠ 1` on `ℚ`. -/
def quantileSorted (x : List ℚ) (p : ℚ) : ℚ :=
  if x.length = 0 then 0
  else if p = 1 then x.getD (x.length - 1) 0
  else if p = 0 then x.getD 0 0
  else if ((x.length : ℚ) * p).den ≠ 1 then
    x.getD (⌈(x.length : ℚ) * p⌉.toNat - 1) 0
  else if x.length % 2 = 0 then
    (x.getD (((x.length : ℚ) * p).num.toNat - 1) 0
      + x.getD ((x.length : ℚ) * p).num.toNat 0) / 2
  else x.getD ((x.length : ℚ) * p).num.toNat 0

/-- `simple-statistics` `quantile(x, p)`: selects as if the sample were
sorted ascending (the library uses quickselect; the result coincides with
`quantileSorted` on the sorted copy). -/
def ssQuantile (x : List ℚ) (p : ℚ) : ℚ :=
  quantileSorted (x.mergeSort (fun a b => a ≤ b)) p

/-- `simple-statistics` `min` (call sites are non-empty; empty = 0). -/
def ssMin : List ℚ → ℚ
  | [] => 0
  | h :: t => t.foldl min h

/-- `simple-statistics` `max` (call sites are non-empty; empty = 0). -/
def ssMax : List ℚ → ℚ
  | [] => 0
  | h :: t => t.foldl max h

/-- `simple-statistics` `mean`: sum / length. -/
def ssMean (x : List ℚ) : ℚ := x.sum / x.length

/-- `simple-statistics` `median(x) = quantile(x, 0.5)`. -/
def ssMedian (x : List ℚ) : ℚ := ssQuantile x (1 / 2)

/-- `simple-statistics` `variance`: population variance
`sumNthPowerDeviations(x, 2) / x.length`. -/
def ssVariance (x : List ℚ) : ℚ :=
  ((x.map (fun v => (v - ssMean x) ^ 2)).sum) / x.length

/-- `simple-statistics` `standardDeviation`: `0` for a single sample,
otherwise `Math.sqrt(variance x)`; `Math.sqrt` is the abstract `sqrt`. -/
def ssStandardDeviation (sqrt : ℚ → ℚ) (x : List ℚ) : ℚ :=
  if x.length = 1 then 0 else sqrt (ssVariance x)

/-- `PerformanceAnalyzer.calculateMetrics(testDuration)` over the analyzer's
accumulated `results`.  Mirrors the source: filter successes/failures,
take the degenerate branch when there is no successful latency sample,
otherwise compute throughput, the four quantiles over the sorted sample,
and the dispersion statistics. -/
def calculateMetrics (sqrt : ℚ → ℚ) (results : List OperationResult)
    (testDuration : ℚ) : PerformanceMetrics :=
  let successfulResults := results.filter (fun r => r.success)
  let failedResults := results.filter (fun r => !r.success)
  let latencies := successfulResults.map (fun r => r.latency)
  if latencies.length = 0 then
    { totalOperations := results.length
      successfulOperations := 0
      failedOperations := failedResults.length
      totalDuration := testDuration
      throughput := 0
      latencies := []
      percentiles := ⟨0, 0, 0, 0⟩
      statistics := ⟨0, 0, 0, 0, 0⟩
      errorRate := 100
      timestamps := results.map (fun r => r.timestamp) }
  else
    let sortedLatencies := latencies.mergeSort (fun a b => a ≤ b)
    { totalOperations := results.length
      successfulOperations := successfulResults.length
      failedOperations := failedResults.length
      totalDuration := testDuration
      throughput := (successfulResults.length : ℚ) / testDuration * 1000
      latencies := latencies
      percentiles :=
        ⟨ssQuantile sortedLatencies (1 / 2), ssQuantile sortedLatencies (9 / 10),
         ssQuantile sortedLatencies (19 / 20), ssQuantile sortedLatencies (99 / 100)⟩
      statistics :=
        ⟨ssMin latencies, ssMax latencies, ssMean latencies,
         ssMedian latencies, ssStandardDeviation sqrt latencies⟩
      errorRate := (failedResults.length : ℚ) / (results.length : ℚ) * 100
      timestamps := results.map (fun r => r.timestamp) }

/-- Observable behaviour of one remote call (`VirtualClient.initialize`,
`acknowledgeInitialize` or `listTools`): it occupies `dur` integer
milliseconds of wall time and either resolves (`err = none`) or rejects
with an error whose message text is `m` (`err = some m`). -/
structure Step where
  dur : ℕ
  err : Option String
deriving DecidableEq

/-- Behaviour of the fixed three-step workflow: the three remote calls of
`executeClientWorkflow`, in program order. -/
structure StepTriple where
  init : Step
  acknowledge : Step
  listTools : Step
deriving DecidableEq

/-- The `try`-block of `TestRunner.executeClientWorkflow` started at wall
time `t0`: run the three steps in order, pushing a success outcome per
completed step (latency = step duration, timestamp = step start).  A
rejecting step raises: `.error (message, outcomes recorded so far, elapsed
ms including the failing step)`.  A normal return is
`.ok (outcomes, elapsed ms)`. -/
def workflowTry (w : StepTriple) (t0 : ℚ) :
    Except (String × List OperationResult × ℕ) (List OperationResult × ℕ) :=
  match w.init.err with
  | some m => .error (m, [], w.init.dur)
  | none =>
    let r1 : OperationResult :=
      ⟨true, w.init.dur, t0, none⟩
    match w.acknowledge.err with
    | some m => .error (m, [r1], w.init.dur + w.acknowledge.dur)
    | none =>
      let r2 : OperationResult :=
        ⟨true, w.acknowledge.dur, t0 + w.init.dur, none⟩
      match w.listTools.err with
      | some m =>
          .error (m, [r1, r2],
            w.init.dur + w.acknowledge.dur + w.listTools.dur)
      | none =>
          .ok ([r1, r2,
            ⟨true, w.listTools.dur, t0 + w.init.dur + w.acknowledge.dur,
              none⟩],
            w.init.dur + w.acknowledge.dur + w.listTools.dur)

/-- `TestRunner.executeClientWorkflow`: the `catch` around `workflowTry`
converts a raised step error into one additional failure outcome with zero
latency, timestamp `Date.now()` at catch time, and the error's message;
outcomes already recorded are kept.  Returns (outcomes, elapsed ms). -/
def executeClientWorkflow (w : StepTriple) (t0 : ℚ) :
    List OperationResult × ℕ :=
  match workflowTry w t0 with
  | .ok (rs, e) => (rs, e)
  | .error (m, rs, e) => (rs ++ [⟨false, 0, t0 + e, some m⟩], e)

/-- The message of the first step that rejects, if any (program order). -/
def firstStepError (w : StepTriple) : Option String :=
  match w.init.err with
  | some m => some m
  | none =>
    match w.acknowledge.err with
    | some m => some m
    | none => w.listTools.err

/-- Mutable state of a `TestRunner` instance: the client pool (handles
modelled as identities drawn from a fresh-id counter, since each
`new VirtualClient(...)` creates a distinct handle) and the
`PerformanceAnalyzer`'s accumulated `results`. -/
structure RunnerState where
  clients : List ℕ
  nextId : ℕ
  results : List OperationResult
deriving DecidableEq

/-- `ConcurrentTestConfig` from types.ts. -/
structure ConcurrentTestConfig where
  concurrency : ℕ
  duration : Option ℚ := none
  iterations : Option ℕ := none
  rampUpTime : Option ℚ := none
deriving DecidableEq

/-- `TestResult` from types.ts (`startTime`/`endTime` are epoch-ms). -/
structure TestResult where
  testType : String
  config : ConcurrentTestConfig
  metrics : PerformanceMetrics
  startTime : ℚ
  endTime : ℚ
deriving DecidableEq

/-- `TestRunner.setClientsAmount(amount)`: discards the current pool
(`this.clients = []`) and creates `amount` fresh `VirtualClient` handles. -/
def setClientsAmount (s : RunnerState) (amount : ℕ) : RunnerState :=
  { clients := (List.range amount).map (fun j => s.nextId + j)
    nextId := s.nextId + amount
    results := s.results }

/-- `TestRunner.runConcurrentTest(config)` started at wall time `t0`, with
client slot `i`'s workflow behaving as `behs i`.  Grows the pool via
`setClientsAmount` when it is smaller than `config.concurrency`, resets the
analyzer, launches one workflow per slot (staggered by
`rampUpTime*1000/concurrency` ms when `rampUpTime > 0`, else all at `t0`),
collects every outcome, and computes metrics over the measured wall-clock
duration.  The per-slot `undefined`-client throw of the source is
unreachable here (the pool ensure step guarantees `concurrency` clients),
so the slots are exactly the first `concurrency` pool positions. -/
def runConcurrentTest (sqrt : ℚ → ℚ) (behs : ℕ → StepTriple) (t0 : ℚ)
    (cfg : ConcurrentTestConfig) (s : RunnerState) :
    TestResult × RunnerState :=
  let s1 := if s.clients.length < cfg.concurrency
    then setClientsAmount s cfg.concurrency else s
  let s2 : RunnerState := { s1 with results := [] }
  let ramp : Bool := match cfg.rampUpTime with
    | some rt => decide (0 < rt)
    | none => false
  let startAt : ℕ → ℚ := fun i =>
    if ramp then t0 + i * (cfg.rampUpTime.getD 0 * 1000 / cfg.concurrency)
    else t0
  let slots := List.range (s1.clients.take cfg.concurrency).length
  let runs := slots.map (fun i => (i, executeClientWorkflow (behs i) (startAt i)))
  let results := runs.flatMap (fun p => p.2.1)
  let ends := runs.map (fun p => startAt p.1 + (p.2.2 : ℚ))
  let totalDuration := ends.foldl max t0 - t0
  let metrics := calculateMetrics sqrt results totalDuration
  ({ testType := "concurrent", config := cfg, metrics := metrics,
     startTime := t0, endTime := t0 + totalDuration },
   { s2 with results := results })

/-- `TestRunner.runClientForDuration(client, endTime)`: repeat the workflow
(iteration `k` behaving as `beh k`) while `Date.now() < endTime`, waiting a
fixed 10 ms between iterations.  Returns the outcomes recorded by this loop
and the wall time at which the loop observed the deadline. -/
def runClientForDuration (beh : ℕ → StepTriple) (k : ℕ) (now endTime : ℚ) :
    List OperationResult × ℚ :=
  if h : now < endTime then
    let step := executeClientWorkflow (beh k) now
    let rest := runClientForDuration beh (k + 1) (now + (step.2 : ℚ) + 10) endTime
    (step.1 ++ rest.1, rest.2)
  else ([], now)
termination_by (⌈endTime - now⌉).toNat
decreasing_by
  have h1 : (1 : ℤ) ≤ ⌈endTime - now⌉ := by
    rw [Int.le_ceil_iff]
    push_cast
    linarith
  have h2 : ⌈endTime - (now + ((executeClientWorkflow (beh k) now).2 : ℚ) + 10)⌉
      ≤ ⌈endTime - now⌉ - 10 := by
    have : endTime - (now + ((executeClientWorkflow (beh k) now).2 : ℚ) + 10)
        ≤ (endTime - now) - ((10 : ℕ) : ℚ) := by
      have : (0 : ℚ) ≤ ((executeClientWorkflow (beh k) now).2 : ℚ) := by
        positivity
      push_cast
      linarith
    calc ⌈endTime - (now + ((executeClientWorkflow (beh k) now).2 : ℚ) + 10)⌉
        ≤ ⌈(endTime - now) - ((10 : ℕ) : ℚ)⌉ := Int.ceil_le_ceil this
      _ = ⌈endTime - now⌉ - 10 := by
          rw [Int.ceil_sub_nat]
          norm_num
  omega

/-- `TestRunner.runLoadTest(config)` started at wall time `t0`, with client
slot `i`'s `k`-th workflow iteration behaving as `behs i k`.  Fails fast
with the configuration error when `!config.duration` (absent or zero in
JS truthiness), leaving the runner state untouched; otherwise ensures the
pool, resets the analyzer, runs one deadline-bounded loop per client slot
(all starting at `t0`; the loops are linearised client-by-client), and
computes metrics over the measured wall-clock duration. -/
def runLoadTest (sqrt : ℚ → ℚ) (behs : ℕ → ℕ → StepTriple) (t0 : ℚ)
    (cfg : ConcurrentTestConfig) (s : RunnerState) :
    Except String TestResult × RunnerState :=
  if cfg.duration.getD 0 = 0 then
    (.error "Duration must be specified for load tests", s)
  else
    let d := cfg.duration.getD 0
    let s1 := if s.clients.length < cfg.concurrency
      then setClientsAmount s cfg.concurrency else s
    let s2 : RunnerState := { s1 with results := [] }
    let endTime := t0 + d * 1000
    let slots := List.range (s1.clients.take cfg.concurrency).length
    let loops := slots.map (fun i => runClientForDuration (behs i) 0 t0 endTime)
    let results := loops.flatMap (fun p => p.1)
    let finishes := loops.map (fun p => p.2)
    let totalDuration := finishes.foldl max t0 - t0
    let metrics := calculateMetrics sqrt results totalDuration
    (.ok { testType := "load", config := cfg, metrics := metrics,
           startTime := t0, endTime := t0 + totalDuration },
     { s2 with results := results })

/-- Export format selector of `TestRunner.exportResults`. -/
inductive ExportFormat where
  | json
  | csv
deriving DecidableEq

/-- Render a JSON string literal (the exported fields contain no characters
needing escapes at the call sites). -/
def jsonQuote (s : String) : String := "\"" ++ s ++ "\""

/-- Render a JSON array of numbers as `JSON.stringify(_, null, 2)` does at
surrounding indentation `ind`. -/
def jsonNumList (numStr : ℚ → String) (ind : String) (xs : List ℚ) : String :=
  match xs with
  | [] => "[]"
  | _ => "[\n"
      ++ String.intercalate ",\n" (xs.map (fun q => ind ++ "  " ++ numStr q))
      ++ "\n" ++ ind ++ "]"

/-- The `config` object as serialised inside `exportToJson`
(`JSON.stringify` keeps declared key order and omits absent optionals). -/
def configJson (numStr : ℚ → String) (cfg : ConcurrentTestConfig) : String :=
  let fields : List String :=
    ["    \"concurrency\": " ++ numStr cfg.concurrency]
    ++ (match cfg.duration with
        | some d => ["    \"duration\": " ++ numStr d]
        | none => [])
    ++ (match cfg.iterations with
        | some n => ["    \"iterations\": " ++ numStr n]
        | none => [])
    ++ (match cfg.rampUpTime with
        | some r => ["    \"rampUpTime\": " ++ numStr r]
        | none => [])
  "\x7b\n" ++ String.intercalate ",\n" fields ++ "\n  \x7d"

/-- The `metrics` object as serialised inside `exportToJson` (field order
follows the object literal in `calculateMetrics`). -/
def metricsJson (numStr : ℚ → String) (m : PerformanceMetrics) : String :=
  "\x7b\n"
  ++ "    \"totalOperations\": " ++ numStr m.totalOperations ++ ",\n"
  ++ "    \"successfulOperations\": " ++ numStr m.successfulOperations ++ ",\n"
  ++ "    \"failedOperations\": " ++ numStr m.failedOperations ++ ",\n"
  ++ "    \"totalDuration\": " ++ numStr m.totalDuration ++ ",\n"
  ++ "    \"throughput\": " ++ numStr m.throughput ++ ",\n"
  ++ "    \"latencies\": " ++ jsonNumList numStr "    " m.latencies ++ ",\n"
  ++ "    \"percentiles\": \x7b\n"
  ++ "      \"p50\": " ++ numStr m.percentiles.p50 ++ ",\n"
  ++ "      \"p90\": " ++ numStr m.percentiles.p90 ++ ",\n"
  ++ "      \"p95\": " ++ numStr m.percentiles.p95 ++ ",\n"
  ++ "      \"p99\": " ++ numStr m.percentiles.p99 ++ "\n"
  ++ "    \x7d,\n"
  ++ "    \"statistics\": \x7b\n"
  ++ "      \"min\": " ++ numStr m.statistics.min ++ ",\n"
  ++ "      \"max\": " ++ numStr m.statistics.max ++ ",\n"
  ++ "      \"mean\": " ++ numStr m.statistics.mean ++ ",\n"
  ++ "      \"median\": " ++ numStr m.statistics.median ++ ",\n"
  ++ "      \"standardDeviation\": " ++ numStr m.statistics.standardDeviation ++ "\n"
  ++ "    \x7d,\n"
  ++ "    \"errorRate\": " ++ numStr m.errorRate ++ ",\n"
  ++ "    \"timestamps\": " ++ jsonNumList numStr "    " m.timestamps ++ "\n"
  ++ "  \x7d"

/-- `PerformanceAnalyzer.exportToJson(testResult)`:
`JSON.stringify(testResult, null, 2)` — a function of the report alone
(dates render through the abstract `iso`). -/
def exportToJson (iso numStr : ℚ → String) (testResult : TestResult) :
    String :=
  "\x7b\n"
  ++ "  \"testType\": " ++ jsonQuote testResult.testType ++ ",\n"
  ++ "  \"config\": " ++ configJson numStr testResult.config ++ ",\n"
  ++ "  \"metrics\": " ++ metricsJson numStr testResult.metrics ++ ",\n"
  ++ "  \"startTime\": " ++ jsonQuote (iso testResult.startTime) ++ ",\n"
  ++ "  \"endTime\": " ++ jsonQuote (iso testResult.endTime) ++ "\n"
  ++ "\x7d"

/-- One row of the CSV raw-data block:
`` `${r.timestamp},${r.latency},${r.success},${r.error || ""}` ``
(an absent or empty error renders as the empty string). -/
def csvRow (numStr : ℚ → String) (r : OperationResult) : String :=
  numStr r.timestamp ++ "," ++ numStr r.latency ++ ","
  ++ (if r.success then "true" else "false") ++ ","
  ++ (match r.error with
      | some e => if e = "" then "" else e
      | none => "")

/-- `PerformanceAnalyzer.exportToCsv(testResult)`.  Note the raw-data rows
are read from the analyzer's accumulated `results` field (`this.results`),
not from the `testResult` argument.  `if (config.duration)` /
`if (config.rampUpTime)` are JS-truthy: a present zero is omitted. -/
def exportToCsv (iso numStr fixed2 : ℚ → String)
    (results : List OperationResult) (testResult : TestResult) : String :=
  let metrics := testResult.metrics
  let config := testResult.config
  let csv := "# Test Metadata\n"
    ++ "Test Type," ++ testResult.testType ++ "\n"
    ++ "Concurrency," ++ numStr config.concurrency ++ "\n"
    ++ (match config.duration with
        | some d => if d = 0 then "" else "Duration," ++ numStr d ++ "\n"
        | none => "")
    ++ (match config.rampUpTime with
        | some r => if r = 0 then "" else "Ramp Up Time," ++ numStr r ++ "\n"
        | none => "")
    ++ "Start Time," ++ iso testResult.startTime ++ "\n"
    ++ "End Time," ++ iso testResult.endTime ++ "\n"
    ++ "Total Operations," ++ numStr metrics.totalOperations ++ "\n"
    ++ "Successful Operations," ++ numStr metrics.successfulOperations ++ "\n"
    ++ "Failed Operations," ++ numStr metrics.failedOperations ++ "\n"
    ++ "Throughput (ops/sec)," ++ fixed2 metrics.throughput ++ "\n"
    ++ "Error Rate (%)," ++ fixed2 metrics.errorRate ++ "\n"
    ++ "P50 Latency (ms)," ++ fixed2 metrics.percentiles.p50 ++ "\n"
    ++ "P90 Latency (ms)," ++ fixed2 metrics.percentiles.p90 ++ "\n"
    ++ "P95 Latency (ms)," ++ fixed2 metrics.percentiles.p95 ++ "\n"
    ++ "P99 Latency (ms)," ++ fixed2 metrics.percentiles.p99 ++ "\n"
    ++ "Mean Latency (ms)," ++ fixed2 metrics.statistics.mean ++ "\n"
    ++ "Min Latency (ms)," ++ fixed2 metrics.statistics.min ++ "\n"
    ++ "Max Latency (ms)," ++ fixed2 metrics.statistics.max ++ "\n"
    ++ "Std Dev Latency (ms)," ++ fixed2 metrics.statistics.standardDeviation ++ "\n"
    ++ "\n# Raw Operation Data\n"
    ++ "timestamp,latency,success,error\n"
  let rows := String.intercalate "\n" (results.map (csvRow numStr))
  csv ++ rows

/-- `TestRunner.exportResults(testResult, format)`: dispatch to the
analyzer's CSV or JSON export (the analyzer's accumulated `results` are
the runner's current analyzer state). -/
def exportResults (iso numStr fixed2 : ℚ → String)
    (results : List OperationResult) (testResult : TestResult)
    (format : ExportFormat) : String :=
  match format with
  | .csv => exportToCsv iso numStr fixed2 results testResult
  | .json => exportToJson iso numStr testResult

/-- A fixed non-trivial `TestResult` fixture (one successful 5 ms
operation) used to exercise the export functions. -/
def sampleReport : TestResult :=
  { testType := "concurrent"
    config := ⟨2, none, none, none⟩
    metrics :=
      { totalOperations := 1
        successfulOperations := 1
        failedOperations := 0
        totalDuration := 5
        throughput := 200
        latencies := [5]
        percentiles := ⟨5, 5, 5, 5⟩
        statistics := ⟨5, 5, 5, 5, 0⟩
        errorRate := 0
        timestamps := [0] }
    startTime := 0
    endTime := 5 }

/-- The two filters of `calculateMetrics` partition the result list. -/
theorem length_filter_success_add_not (results : List OperationResult) :
    (results.filter (fun r => r.success)).length
      + (results.filter (fun r => !r.success)).length = results.length := by
  induction results with
  | nil => rfl
  | cons h t ih =>
    by_cases hs : h.success <;>
      simp [List.filter_cons, hs, ← ih] <;> omega

/-- Degenerate branch of `calculateMetrics`: no successful outcome. -/
theorem calculateMetrics_of_no_success (sqrt : ℚ → ℚ)
    {results : List OperationResult} (d : ℚ)
    (h : results.filter (fun r => r.success) = []) :
    calculateMetrics sqrt results d =
      { totalOperations := results.length
        successfulOperations := 0
        failedOperations := (results.filter (fun r => !r.success)).length
        totalDuration := d
        throughput := 0
        latencies := []
        percentiles := ⟨0, 0, 0, 0⟩
        statistics := ⟨0, 0, 0, 0, 0⟩
        errorRate := 100
        timestamps := results.map (fun r => r.timestamp) } := by
  unfold calculateMetrics
  simp [h]

/-- Main branch of `calculateMetrics`: at least one successful outcome. -/
theorem calculateMetrics_of_success (sqrt : ℚ → ℚ)
    {results : List OperationResult} (d : ℚ)
    (h : results.filter (fun r => r.success) ≠ []) :
    calculateMetrics sqrt results d =
      { totalOperations := results.length
        successfulOperations := (results.filter (fun r => r.success)).length
        failedOperations := (results.filter (fun r => !r.success)).length
        totalDuration := d
        throughput := ((results.filter (fun r => r.success)).length : ℚ) / d * 1000
        latencies := (results.filter (fun r => r.success)).map (fun r => r.latency)
        percentiles :=
          ⟨ssQuantile (((results.filter (fun r => r.success)).map
              (fun r => r.latency)).mergeSort (fun a b => a ≤ b)) (1 / 2),
           ssQuantile (((results.filter (fun r => r.success)).map
              (fun r => r.latency)).mergeSort (fun a b => a ≤ b)) (9 / 10),
           ssQuantile (((results.filter (fun r => r.success)).map
              (fun r => r.latency)).mergeSort (fun a b => a ≤ b)) (19 / 20),
           ssQuantile (((results.filter (fun r => r.success)).map
              (fun r => r.latency)).mergeSort (fun a b => a ≤ b)) (99 / 100)⟩
        statistics :=
          ⟨ssMin ((results.filter (fun r => r.success)).map (fun r => r.latency)),
           ssMax ((results.filter (fun r => r.success)).map (fun r => r.latency)),
           ssMean ((results.filter (fun r => r.success)).map (fun r => r.latency)),
           ssMedian ((results.filter (fun r => r.success)).map (fun r => r.latency)),
           ssStandardDeviation sqrt
             ((results.filter (fun r => r.success)).map (fun r => r.latency))⟩
        errorRate := ((results.filter (fun r => !r.success)).length : ℚ)
          / (results.length : ℚ) * 100
        timestamps := results.map (fun r => r.timestamp) } := by
  unfold calculateMetrics
  simp [h]

/-- C1: for every recorded outcome set (empty or not), the metrics satisfy
`successfulOperations + failedOperations = totalOperations`, and
`totalOperations` is the number of recorded outcomes. -/
theorem calculateMetrics_success_add_failed (sqrt : ℚ → ℚ)
    (results : List OperationResult) (d : ℚ) :
    (calculateMetrics sqrt results d).successfulOperations
        + (calculateMetrics sqrt results d).failedOperations
      = (calculateMetrics sqrt results d).totalOperations
    ∧ (calculateMetrics sqrt results d).totalOperations = results.length := by
  by_cases h : results.filter (fun r => r.success) = []
  · rw [calculateMetrics_of_no_success sqrt d h]
    refine ⟨?_, rfl⟩
    have hpart := length_filter_success_add_not results
    rw [h] at hpart
    simpa using hpart
  · rw [calculateMetrics_of_success sqrt d h]
    exact ⟨length_filter_success_add_not results, rfl⟩

/-- C4: when no recorded outcome is successful (including the empty set),
`calculateMetrics` takes its explicit degenerate branch: `errorRate = 100`
and every percentile field and every dispersion field is exactly `0`. -/
theorem calculateMetrics_all_failed (sqrt : ℚ → ℚ)
    (results : List OperationResult) (d : ℚ)
    (h : ∀ r ∈ results, r.success = false) :
    (calculateMetrics sqrt results d).errorRate = 100
    ∧ (calculateMetrics sqrt results d).percentiles = ⟨0, 0, 0, 0⟩
    ∧ (calculateMetrics sqrt results d).statistics = ⟨0, 0, 0, 0, 0⟩ := by
  have hf : results.filter (fun r => r.success) = [] := by
    rw [List.filter_eq_nil_iff]
    intro a ha
    simp [h a ha]
  rw [calculateMetrics_of_no_success sqrt d hf]
  exact ⟨rfl, rfl, rfl⟩

/-- C4 witness: a single failed outcome. -/
theorem calculateMetrics_all_failed_witness :
    (calculateMetrics (fun x => x) [⟨false, 5, 3, some "x"⟩] 7).errorRate = 100
    ∧ (calculateMetrics (fun x => x) [⟨false, 5, 3, some "x"⟩] 7).percentiles
        = ⟨0, 0, 0, 0⟩
    ∧ (calculateMetrics (fun x => x) [⟨false, 5, 3, some "x"⟩] 7).statistics
        = ⟨0, 0, 0, 0, 0⟩ :=
  calculateMetrics_all_failed (fun x => x) [⟨false, 5, 3, some "x"⟩] 7
    (by decide)

/-- C5: with at least one successful outcome and a positive wall-clock
duration `d` (ms), throughput equals successful-count divided by `d/1000`
seconds — a function of the caller-supplied wall-clock duration. -/
theorem calculateMetrics_throughput (sqrt : ℚ → ℚ)
    (results : List OperationResult) (d : ℚ)
    (hs : results.filter (fun r => r.success) ≠ []) (hd : 0 < d) :
    (calculateMetrics sqrt results d).throughput
      = ((results.filter (fun r => r.success)).length : ℚ) / (d / 1000) := by
  rw [calculateMetrics_of_success sqrt d hs]
  show ((results.filter (fun r => r.success)).length : ℚ) / d * 1000 = _
  rw [div_div_eq_mul_div, div_mul_eq_mul_div]

/-- Access into a sorted rational list is monotone in the index. -/
theorem sorted_getD_le_getD {l : List ℚ} (hs : l.Sorted (· ≤ ·)) {i j : ℕ}
    (hij : i ≤ j) (hj : j < l.length) : l.getD i 0 ≤ l.getD j 0 := by
  have hi : i < l.length := lt_of_le_of_lt hij hj
  rw [List.getD_eq_getElem l 0 hi, List.getD_eq_getElem l 0 hj]
  exact hs.rel_get_of_le (a := ⟨i, hi⟩) (b := ⟨j, hj⟩) hij

/-- `quantileSorted` is monotone in `p` over a sorted non-empty sample for
`0 < p ≤ q < 1` (which covers the four percentile probabilities). -/
theorem quantileSorted_mono {l : List ℚ} (hs : l.Sorted (· ≤ ·))
    (hne : l ≠ []) {p q : ℚ} (hp0 : 0 < p) (hq1 : q < 1) (hpq : p ≤ q) :
    quantileSorted l p ≤ quantileSorted l q := by
  rcases eq_or_lt_of_le hpq with rfl | hlt
  · exact le_refl _
  have hq0 : 0 < q := lt_trans hp0 hlt
  have hp1 : p < 1 := lt_trans hlt hq1
  have hn0 : l.length ≠ 0 := fun h => hne (List.length_eq_zero.mp h)
  have hn : 0 < l.length := Nat.pos_of_ne_zero hn0
  have hnQ : (0 : ℚ) < (l.length : ℚ) := by exact_mod_cast hn
  have hip0 : 0 < (l.length : ℚ) * p := mul_pos hnQ hp0
  have hiq0 : 0 < (l.length : ℚ) * q := mul_pos hnQ hq0
  have hipn : (l.length : ℚ) * p < (l.length : ℚ) := by nlinarith
  have hiqn : (l.length : ℚ) * q < (l.length : ℚ) := by nlinarith
  have hii : (l.length : ℚ) * p < (l.length : ℚ) * q := by nlinarith
  have hcp1 : 1 ≤ ⌈(l.length : ℚ) * p⌉ := Int.ceil_pos.mpr hip0
  have hcq1 : 1 ≤ ⌈(l.length : ℚ) * q⌉ := Int.ceil_pos.mpr hiq0
  have hcpn : ⌈(l.length : ℚ) * p⌉ ≤ (l.length : ℤ) :=
    Int.ceil_le.mpr (by push_cast; linarith)
  have hcqn : ⌈(l.length : ℚ) * q⌉ ≤ (l.length : ℤ) :=
    Int.ceil_le.mpr (by push_cast; linarith)
  have hcc : ⌈(l.length : ℚ) * p⌉ ≤ ⌈(l.length : ℚ) * q⌉ :=
    Int.ceil_le_ceil (le_of_lt hii)
  unfold quantileSorted
  rw [if_neg hn0, if_neg hn0, if_neg (ne_of_lt hp1), if_neg (ne_of_lt hq1),
    if_neg (ne_of_gt hp0), if_neg (ne_of_gt hq0)]
  by_cases hdp : ((l.length : ℚ) * p).den = 1
  · -- p-index is an integer
    have hkp : ((((l.length : ℚ) * p).num : ℚ)) = (l.length : ℚ) * p :=
      (Rat.den_eq_one_iff _).mp hdp
    have hkp0 : 0 < ((l.length : ℚ) * p).num := Rat.num_pos.mpr hip0
    have hkpn : ((l.length : ℚ) * p).num < (l.length : ℤ) := by
      have : ((((l.length : ℚ) * p).num : ℚ)) < ((l.length : ℤ) : ℚ) := by
        rw [hkp]; push_cast; linarith
      exact_mod_cast this
    rw [if_neg (not_not_intro hdp)]
    by_cases hdq : ((l.length : ℚ) * q).den = 1
    · -- q-index is an integer too
      have hkq : ((((l.length : ℚ) * q).num : ℚ)) = (l.length : ℚ) * q :=
        (Rat.den_eq_one_iff _).mp hdq
      have hkq0 : 0 < ((l.length : ℚ) * q).num := Rat.num_pos.mpr hiq0
      have hkqn : ((l.length : ℚ) * q).num < (l.length : ℤ) := by
        have : ((((l.length : ℚ) * q).num : ℚ)) < ((l.length : ℤ) : ℚ) := by
          rw [hkq]; push_cast; linarith
        exact_mod_cast this
      have hkk : ((l.length : ℚ) * p).num < ((l.length : ℚ) * q).num := by
        have : ((((l.length : ℚ) * p).num : ℚ)) < ((((l.length : ℚ) * q).num : ℚ)) := by
          rw [hkp, hkq]; exact hii
        exact_mod_cast this
      rw [if_neg (not_not_intro hdq)]
      by_cases hev : l.length % 2 = 0
      · rw [if_pos hev, if_pos hev]
        have h1 : l.getD (((l.length : ℚ) * p).num.toNat - 1) 0
            ≤ l.getD (((l.length : ℚ) * q).num.toNat - 1) 0 :=
          sorted_getD_le_getD hs (by omega) (by omega)
        have h2 : l.getD (((l.length : ℚ) * p).num.toNat) 0
            ≤ l.getD (((l.length : ℚ) * q).num.toNat) 0 :=
          sorted_getD_le_getD hs (by omega) (by omega)
        linarith
      · rw [if_neg hev, if_neg hev]
        exact sorted_getD_le_getD hs (by omega) (by omega)
    · -- q-index is not an integer
      have hqc : ((l.length : ℚ) * p).num < ⌈(l.length : ℚ) * q⌉ :=
        Int.lt_ceil.mpr (by rw [hkp]; exact hii)
      rw [if_pos hdq]
      by_cases hev : l.length % 2 = 0
      · rw [if_pos hev]
        have h1 : l.getD (((l.length : ℚ) * p).num.toNat - 1) 0
            ≤ l.getD (((l.length : ℚ) * p).num.toNat) 0 :=
          sorted_getD_le_getD hs (by omega) (by omega)
        have h2 : l.getD (((l.length : ℚ) * p).num.toNat) 0
            ≤ l.getD (⌈(l.length : ℚ) * q⌉.toNat - 1) 0 :=
          sorted_getD_le_getD hs (by omega) (by omega)
        linarith
      · rw [if_neg hev]
        exact sorted_getD_le_getD hs (by omega) (by omega)
  · -- p-index is not an integer
    rw [if_pos hdp]
    by_cases hdq : ((l.length : ℚ) * q).den = 1
    · have hkq : ((((l.length : ℚ) * q).num : ℚ)) = (l.length : ℚ) * q :=
        (Rat.den_eq_one_iff _).mp hdq
      have hkq0 : 0 < ((l.length : ℚ) * q).num := Rat.num_pos.mpr hiq0
      have hkqn : ((l.length : ℚ) * q).num < (l.length : ℤ) := by
        have : ((((l.length : ℚ) * q).num : ℚ)) < ((l.length : ℤ) : ℚ) := by
          rw [hkq]; push_cast; linarith
        exact_mod_cast this
      have hpc : ⌈(l.length : ℚ) * p⌉ ≤ ((l.length : ℚ) * q).num :=
        Int.ceil_le.mpr (by rw [hkq]; exact le_of_lt hii)
      rw [if_neg (not_not_intro hdq)]
      by_cases hev : l.length % 2 = 0
      · rw [if_pos hev]
        have h1 : l.getD (⌈(l.length : ℚ) * p⌉.toNat - 1) 0
            ≤ l.getD (((l.length : ℚ) * q).num.toNat - 1) 0 :=
          sorted_getD_le_getD hs (by omega) (by omega)
        have h2 : l.getD (((l.length : ℚ) * q).num.toNat - 1) 0
            ≤ l.getD (((l.length : ℚ) * q).num.toNat) 0 :=
          sorted_getD_le_getD hs (by omega) (by omega)
        linarith
      · rw [if_neg hev]
        exact sorted_getD_le_getD hs (by omega) (by omega)
    · rw [if_pos hdq]
      exact sorted_getD_le_getD hs (by omega) (by omega)

/-- C5 witness: one successful outcome over half a second gives 2 ops/s. -/
theorem calculateMetrics_throughput_witness :
    (calculateMetrics (fun x => x) [⟨true, 2, 0, none⟩] 500).throughput = 2 := by
  have h := calculateMetrics_throughput (fun x => x) [⟨true, 2, 0, none⟩] 500
    (by decide) (by norm_num)
  rw [h]
  norm_num [List.filter]

/-- C6: whenever the successful-latency sample contains at least two
distinct values, the percentiles computed by `calculateMetrics` satisfy
`p50 ≤ p90 ≤ p95 ≤ p99` (monotonicity of the quantile over the sorted
sample). -/
theorem calculateMetrics_percentiles_mono (sqrt : ℚ → ℚ)
    (results : List OperationResult) (d : ℚ)
    (h2 : 2 ≤ ((results.filter (fun r => r.success)).map
        (fun r => r.latency)).dedup.length) :
    (calculateMetrics sqrt results d).percentiles.p50
        ≤ (calculateMetrics sqrt results d).percentiles.p90
    ∧ (calculateMetrics sqrt results d).percentiles.p90
        ≤ (calculateMetrics sqrt results d).percentiles.p95
    ∧ (calculateMetrics sqrt results d).percentiles.p95
        ≤ (calculateMetrics sqrt results d).percentiles.p99 := by
  have hne : results.filter (fun r => r.success) ≠ [] := by
    intro h
    rw [h] at h2
    simp at h2
  rw [calculateMetrics_of_success sqrt d hne]
  simp only [ssQuantile]
  have hsorted := List.sorted_mergeSort'
    ((((results.filter (fun r => r.success)).map
      (fun r => r.latency)).mergeSort (fun a b => a ≤ b)))
  have hlen : (((((results.filter (fun r => r.success)).map
      (fun r => r.latency)).mergeSort (fun a b => a ≤ b)).mergeSort
        (fun a b => a ≤ b))).length ≠ 0 := by
    rw [List.length_mergeSort, List.length_mergeSort, List.length_map]
    intro hz
    exact hne (List.length_eq_zero.mp hz)
  have hne2 : ((((results.filter (fun r => r.success)).map
      (fun r => r.latency)).mergeSort (fun a b => a ≤ b)).mergeSort
        (fun a b => a ≤ b)) ≠ [] := by
    intro h
    rw [h] at hlen
    exact hlen rfl
  exact ⟨quantileSorted_mono hsorted hne2 (by norm_num) (by norm_num) (by norm_num),
    quantileSorted_mono hsorted hne2 (by norm_num) (by norm_num) (by norm_num),
    quantileSorted_mono hsorted hne2 (by norm_num) (by norm_num) (by norm_num)⟩

/-- C6 witness: two successful outcomes with distinct latencies 1 and 2. -/
theorem calculateMetrics_percentiles_mono_witness :
    (calculateMetrics (fun x => x)
        [⟨true, 1, 0, none⟩, ⟨true, 2, 0, none⟩] 1).percentiles.p50
      ≤ (calculateMetrics (fun x => x)
        [⟨true, 1, 0, none⟩, ⟨true, 2, 0, none⟩] 1).percentiles.p90
    ∧ (calculateMetrics (fun x => x)
        [⟨true, 1, 0, none⟩, ⟨true, 2, 0, none⟩] 1).percentiles.p90
      ≤ (calculateMetrics (fun x => x)
        [⟨true, 1, 0, none⟩, ⟨true, 2, 0, none⟩] 1).percentiles.p95
    ∧ (calculateMetrics (fun x => x)
        [⟨true, 1, 0, none⟩, ⟨true, 2, 0, none⟩] 1).percentiles.p95
      ≤ (calculateMetrics (fun x => x)
        [⟨true, 1, 0, none⟩, ⟨true, 2, 0, none⟩] 1).percentiles.p99 :=
  calculateMetrics_percentiles_mono (fun x => x)
    [⟨true, 1, 0, none⟩, ⟨true, 2, 0, none⟩] 1 (by decide)

/-- C2 (amended): when the first step succeeds and the second step raises,
one workflow execution returns exactly two outcomes: first a success
outcome whose latency is the first step's elapsed time and whose timestamp
is the workflow start, then a failure outcome with zero latency,
catch-time timestamp, and the raised error's message text — not three
failures.  The success latency is nonzero exactly when the first step took
nonzero time, and the error text is non-empty exactly when the raised
message was non-empty. -/
theorem executeClientWorkflow_second_step_failure (t0 : ℚ) (d1 d2 : ℕ)
    (m : String) (s3 : Step) :
    executeClientWorkflow ⟨⟨d1, none⟩, ⟨d2, some m⟩, s3⟩ t0
      = ([⟨true, (d1 : ℚ), t0, none⟩,
          ⟨false, 0, t0 + ((d1 + d2 : ℕ) : ℚ), some m⟩], d1 + d2) := rfl

/-- C2 counterexample: the claim demands a *nonzero* success latency and
*non-empty* error text for every behaviour where step 1 succeeds and step 2
raises; a first step completing within the same millisecond
(`Date.now()` difference 0) and an error with empty message refute it. -/
theorem executeClientWorkflow_second_step_failure_cex :
    ¬ (∀ (w : StepTriple) (t0 : ℚ), w.init.err = none →
        w.acknowledge.err ≠ none →
        ∃ r1 r2, (executeClientWorkflow w t0).1 = [r1, r2]
          ∧ r1.success = true ∧ r1.latency ≠ 0
          ∧ r2.success = false ∧ r2.latency = 0
          ∧ ∃ e, r2.error = some e ∧ e ≠ "") := by
  intro hcl
  obtain ⟨r1, r2, heq, _, hlat, _, _, e, herr, hee⟩ :=
    hcl ⟨⟨0, none⟩, ⟨0, some ""⟩, ⟨0, none⟩⟩ 0 rfl (by simp)
  have hev : (executeClientWorkflow ⟨⟨0, none⟩, ⟨0, some ""⟩, ⟨0, none⟩⟩ 0).1
      = [⟨true, 0, 0, none⟩, ⟨false, 0, 0, some ""⟩] := by
    simp [executeClientWorkflow, workflowTry]
  rw [hev] at heq
  simp only [List.cons.injEq, and_true] at heq
  obtain ⟨h1, -⟩ := heq
  apply hlat
  rw [← h1]

/-- C7: the workflow executor never lets a step failure escape: the
returned outcome list is never empty, every raise of the try-body is
converted locally into one final zero-latency failure outcome carrying the
raised message (outcomes of completed steps kept), and when no step fails
every returned outcome is a success. -/
theorem executeClientWorkflow_never_raises (w : StepTriple) (t0 : ℚ) :
    (executeClientWorkflow w t0).1 ≠ []
    ∧ (∀ m rs e, workflowTry w t0 = .error (m, rs, e) →
        executeClientWorkflow w t0
          = (rs ++ [⟨false, 0, t0 + (e : ℚ), some m⟩], e))
    ∧ (∀ m, firstStepError w = some m →
        ∃ ts, ((executeClientWorkflow w t0).1.getLast?)
            = some ⟨false, 0, ts, some m⟩
          ∧ ∀ r ∈ (executeClientWorkflow w t0).1.dropLast, r.success = true)
    ∧ (firstStepError w = none →
        ∀ r ∈ (executeClientWorkflow w t0).1, r.success = true) := by
  obtain ⟨⟨d1, e1⟩, ⟨d2, e2⟩, ⟨d3, e3⟩⟩ := w
  cases e1 <;> cases e2 <;> cases e3 <;>
    simp [executeClientWorkflow, workflowTry, firstStepError]

/-- C7 witness: a workflow whose second step raises "boom". -/
theorem executeClientWorkflow_never_raises_witness :
    ∃ ts, (((executeClientWorkflow ⟨⟨1, none⟩, ⟨2, some "boom"⟩, ⟨3, none⟩⟩
          0).1.getLast?)) = some ⟨false, 0, ts, some "boom"⟩
      ∧ ∀ r ∈ (executeClientWorkflow ⟨⟨1, none⟩, ⟨2, some "boom"⟩,
          ⟨3, none⟩⟩ 0).1.dropLast, r.success = true :=
  (executeClientWorkflow_never_raises
    ⟨⟨1, none⟩, ⟨2, some "boom"⟩, ⟨3, none⟩⟩ 0).2.2.1 "boom" rfl

/-- C8 (amended): a burst run leaves a pool that already holds at least
`concurrency` handles entirely unchanged; a smaller pool is *replaced* by
exactly `concurrency` freshly created handles (so the pool size never
decreases during a run, but the prior handles are discarded rather than
retained). -/
theorem runConcurrentTest_pool (sqrt : ℚ → ℚ) (behs : ℕ → StepTriple)
    (t0 : ℚ) (cfg : ConcurrentTestConfig) (s : RunnerState) :
    (cfg.concurrency ≤ s.clients.length →
      (runConcurrentTest sqrt behs t0 cfg s).2.clients = s.clients)
    ∧ (s.clients.length < cfg.concurrency →
      (runConcurrentTest sqrt behs t0 cfg s).2.clients
          = (List.range cfg.concurrency).map (fun j => s.nextId + j)
        ∧ s.clients.length
            < ((runConcurrentTest sqrt behs t0 cfg s).2.clients).length) := by
  have hcl : (runConcurrentTest sqrt behs t0 cfg s).2.clients
      = (if s.clients.length < cfg.concurrency
          then setClientsAmount s cfg.concurrency else s).clients := rfl
  constructor
  · intro hge
    rw [hcl, if_neg (not_lt.mpr hge)]
  · intro hlt
    refine ⟨by rw [hcl, if_pos hlt]; rfl, ?_⟩
    rw [hcl, if_pos hlt]
    show s.clients.length
        < ((List.range cfg.concurrency).map (fun j => s.nextId + j)).length
    rw [List.length_map, List.length_range]
    exact hlt

/-- C8 witness: an empty pool is sized up to concurrency 1. -/
theorem runConcurrentTest_pool_witness :
    (runConcurrentTest (fun x => x)
        (fun _ => ⟨⟨1, none⟩, ⟨1, none⟩, ⟨1, none⟩⟩) 0
        ⟨1, none, none, none⟩ ⟨[], 0, []⟩).2.clients
      = (List.range 1).map (fun j => 0 + j)
    ∧ (⟨[], 0, []⟩ : RunnerState).clients.length
        < ((runConcurrentTest (fun x => x)
            (fun _ => ⟨⟨1, none⟩, ⟨1, none⟩, ⟨1, none⟩⟩) 0
            ⟨1, none, none, none⟩ ⟨[], 0, []⟩).2.clients).length :=
  (runConcurrentTest_pool (fun x => x)
    (fun _ => ⟨⟨1, none⟩, ⟨1, none⟩, ⟨1, none⟩⟩) 0
    ⟨1, none, none, none⟩ ⟨[], 0, []⟩).2 (by decide)

/-- C8 counterexample: starting from a pool holding the single handle `0`
and running with concurrency 2, the undersized pool is *not grown*: the
prior handle `0` is absent from the resulting pool (the source's
`setClientsAmount` clears `this.clients` before refilling it), refuting
"when it is smaller it is grown ... growth being the only pool mutation". -/
theorem runConcurrentTest_pool_not_grown_cex :
    (⟨[0], 1, []⟩ : RunnerState).clients.length < 2
    ∧ (0 : ℕ) ∈ (⟨[0], 1, []⟩ : RunnerState).clients
    ∧ (0 : ℕ) ∉ (runConcurrentTest (fun x => x)
        (fun _ => ⟨⟨1, none⟩, ⟨1, none⟩, ⟨1, none⟩⟩) 0
        ⟨2, none, none, none⟩ ⟨[0], 1, []⟩).2.clients :=
  ⟨by decide, by decide, by decide⟩

/-- C10: both public entry points reset the metrics accumulator before
scheduling any work, so the returned `TestResult` (in particular its
metrics) is independent of whatever outcomes a previous run left in the
analyzer. -/
theorem run_entry_points_fresh_metrics :
    (∀ (sqrt : ℚ → ℚ) (behs : ℕ → StepTriple) (t0 : ℚ)
        (cfg : ConcurrentTestConfig) (s : RunnerState)
        (r1 r2 : List OperationResult),
      (runConcurrentTest sqrt behs t0 cfg { s with results := r1 }).1
        = (runConcurrentTest sqrt behs t0 cfg { s with results := r2 }).1)
    ∧ (∀ (sqrt : ℚ → ℚ) (behs : ℕ → ℕ → StepTriple) (t0 : ℚ)
        (cfg : ConcurrentTestConfig) (s : RunnerState)
        (r1 r2 : List OperationResult),
      (runLoadTest sqrt behs t0 cfg { s with results := r1 }).1
        = (runLoadTest sqrt behs t0 cfg { s with results := r2 }).1) := by
  constructor
  · intro sqrt behs t0 cfg s r1 r2
    by_cases hc : s.clients.length < cfg.concurrency <;>
      simp [runConcurrentTest, setClientsAmount, hc]
  · intro sqrt behs t0 cfg s r1 r2
    by_cases hd : cfg.duration.getD 0 = 0
    · simp [runLoadTest, hd]
    · by_cases hc : s.clients.length < cfg.concurrency <;>
        simp [runLoadTest, setClientsAmount, hd, hc]

/-- C3 (amended): `runLoadTest` fails fast with the configuration error
exactly when `durationSeconds` is absent or zero (JS falsiness of
`config.duration`), leaving the runner state untouched — no pool change,
no workflow attempted, no outcome recorded; for any *nonzero* duration
(including negative values, which merely yield an immediate empty run) it
does not raise this error. -/
theorem runLoadTest_duration_check (sqrt : ℚ → ℚ) (behs : ℕ → ℕ → StepTriple)
    (t0 : ℚ) (cfg : ConcurrentTestConfig) (s : RunnerState) :
    (cfg.duration = none ∨ cfg.duration = some 0 →
      runLoadTest sqrt behs t0 cfg s
        = (.error "Duration must be specified for load tests", s))
    ∧ (∀ d, cfg.duration = some d → d ≠ 0 →
      ((runLoadTest sqrt behs t0 cfg s).1).isOk = true) := by
  constructor
  · rintro (h | h) <;> simp [runLoadTest, h]
  · intro d hd hdz
    simp [runLoadTest, hd, hdz, Except.isOk, Except.toBool]

/-- C3 witness: a missing duration triggers the configuration error with
the state unchanged. -/
theorem runLoadTest_duration_check_witness :
    runLoadTest (fun x => x) (fun _ _ => ⟨⟨1, none⟩, ⟨1, none⟩, ⟨1, none⟩⟩) 0
        ⟨1, none, none, none⟩ ⟨[], 0, []⟩
      = (.error "Duration must be specified for load tests", ⟨[], 0, []⟩) :=
  (runLoadTest_duration_check (fun x => x)
    (fun _ _ => ⟨⟨1, none⟩, ⟨1, none⟩, ⟨1, none⟩⟩) 0
    ⟨1, none, none, none⟩ ⟨[], 0, []⟩).1 (Or.inl rfl)

/-- C3 counterexample: `durationSeconds = -1` is "not positive", yet
`runLoadTest` raises no configuration error (JS `!config.duration` only
rejects `undefined`/`0`): the run proceeds and returns a report. -/
theorem runLoadTest_negative_duration_no_error_cex :
    ((runLoadTest (fun x => x) (fun _ _ => ⟨⟨1, none⟩, ⟨1, none⟩, ⟨1, none⟩⟩)
        0 ⟨1, some (-1), none, none⟩ ⟨[], 0, []⟩).1).isOk = true := by
  norm_num [runLoadTest, Except.isOk, Except.toBool]

/-- C9 (amended): export is deterministic with stable field order, but the
CSV output is a function of the report *and* the analyzer's currently
accumulated outcome list (the raw-data rows are read from the analyzer
state); only the JSON output is a function of the report alone. -/
theorem exportResults_deterministic :
    (∀ (iso numStr fixed2 : ℚ → String) (r1 r2 : List OperationResult)
        (tr : TestResult),
      exportResults iso numStr fixed2 r1 tr .json
        = exportResults iso numStr fixed2 r2 tr .json)
    ∧ (∀ (iso numStr fixed2 : ℚ → String) (r1 r2 : List OperationResult)
        (tr : TestResult), r1 = r2 →
      exportResults iso numStr fixed2 r1 tr .csv
        = exportResults iso numStr fixed2 r2 tr .csv) :=
  ⟨fun _ _ _ _ _ _ => rfl, fun _ _ _ _ _ _ h => by rw [h]⟩

/-- C9 witness: identical analyzer state and report give identical CSV. -/
theorem exportResults_deterministic_witness :
    exportResults (fun _ => "") (fun _ => "") (fun _ => "") [] sampleReport .csv
      = exportResults (fun _ => "") (fun _ => "") (fun _ => "")
          [] sampleReport .csv :=
  exportResults_deterministic.2 (fun _ => "") (fun _ => "") (fun _ => "")
    [] [] sampleReport rfl

set_option maxRecDepth 40000 in
/-- C9 counterexample: two invocations with the *same* report but
different analyzer states produce different CSV text, refuting "the output
is a function of the report alone" (the raw-data rows come from
`this.results`). -/
theorem exportResults_csv_state_dependent_cex :
    exportResults (fun _ => "") (fun _ => "") (fun _ => "")
        [] sampleReport .csv
      ≠ exportResults (fun _ => "") (fun _ => "") (fun _ => "")
        [⟨true, 5, 0, none⟩] sampleReport .csv := by
  intro h
  exact absurd (congrArg String.length h) (by decide)

end McpPerf
